import Mathlib

/-!
Shallow embedding of the go-kafka-analytics-pipeline analytics core.

Sources embedded here:
- pkg/analytics/service.go   (ProcessEvent, processPageView, processSession,
  processUserAgent, cleanup, GetSnapshot, getTopPages, getPerformanceMetrics,
  getMetricValue, evaluateAlertCondition, getAlertSeverity, CheckAlerts)
- cmd/consumer/main.go       (RealTimeAnalytics store shape and
  NewRealTimeAnalytics initial state, MetricsSnapshot, PerformanceMetrics,
  PageMetric, Alert, AlertConfig)
- pkg/websocket/hub.go       (Hub.Run broadcast case, Hub.removeClient)

Modelling conventions:
- Go float64 values (load-time samples, thresholds, metric values) are
  modelled as exact rationals.
- Go int64 counters are modelled as Int (no claim exercises wraparound).
- Go maps are modelled as association lists in insertion order; a map read
  of a missing key yields the zero value, as in Go.
- time.Time is modelled as Unix seconds (Int); time.Truncate(time.Hour)
  is floor division by 3600 (the Go zero time is hour aligned).
- strings.ToLower / strings.Contains are modelled on character lists;
  case folding is ASCII, which covers every needle the code uses.
- Traffic-source extraction (processReferrer) and the URL-path / message
  presentation fields of snapshots and alerts depend on url.Parse,
  fmt.Sprintf and the wall clock; no claim consults them and they are
  omitted from the embedding.
-/

/-- Model of strings.ToLower for ASCII (service.go:142). -/
def lowerStr (s : String) : String := String.mk (s.data.map Char.toLower)

/-- Model of strings.Contains: some suffix of s starts with pat. -/
def strContains (s pat : String) : Bool :=
  s.data.tails.any (fun t => pat.data.isPrefixOf t)

/-- Read a Go map modelled as an association list; a missing key reads the
zero value 0, as in Go. -/
def lookupD {κ : Type} [DecidableEq κ] (m : List (κ × Int)) (k : κ) : Int :=
  match m with
  | [] => 0
  | p :: rest => if p.1 = k then p.2 else lookupD rest k

/-- Model of the Go map increment m[k]++ (reads 0 for a missing key). -/
def bumpKey {κ : Type} [DecidableEq κ] (m : List (κ × Int)) (k : κ) :
    List (κ × Int) :=
  match m with
  | [] => [(k, 1)]
  | p :: rest => if p.1 = k then (p.1, p.2 + 1) :: rest else p :: bumpKey rest k

/-- Model of the Go map assignment m[k] = v. -/
def setKey {κ : Type} [DecidableEq κ] (m : List (κ × Int)) (k : κ) (v : Int) :
    List (κ × Int) :=
  match m with
  | [] => [(k, v)]
  | p :: rest => if p.1 = k then (p.1, v) :: rest else p :: setKey rest k v

/-- Sum of all values of a Go map modelled as an association list. -/
def sumValues {κ : Type} (m : List (κ × Int)) : Int := (m.map (fun p => p.2)).sum

/-- Model of the Go set insertion m[k] = true on a map-to-bool. -/
def insertMem (l : List String) (u : String) : List String :=
  if u ∈ l then l else l.concat u

/-- Go time.Time.Truncate(time.Hour).Unix() on a Unix-seconds timestamp:
floor to a multiple of 3600 (the Go zero time is hour aligned). -/
def truncHour (t : Int) : Int := t.ediv 3600 * 3600

/-- Event record (pkg/models events.go, AnalyticsEvent). The open metadata
mapping is modelled by the three typed reads the engine performs on it:
a float64 load_time and string device / browser entries. -/
structure AnalyticsEvent where
  id : String
  type : String
  timestamp : Int
  userID : String
  sessionID : String
  url : String
  userAgent : String
  loadTime : Option ℚ
  metaDevice : Option String
  metaBrowser : Option String
  deriving DecidableEq

/-- Aggregation store (cmd/consumer/main.go:764, RealTimeAnalytics).
The TrafficSources map and StartTime are omitted: no claim consults them. -/
structure RealTimeAnalytics where
  events : List AnalyticsEvent
  pageViews : List (String × Int)
  uniqueUsers : List String
  sessionsActive : List (String × Int)
  eventsByType : List (String × Int)
  hourlyData : List (Int × Int)
  loadTimes : List ℚ
  deviceTypes : List (String × Int)
  browserTypes : List (String × Int)
  pageVisitors : List (String × List String)
  lastCleanup : Int
  totalEvents : Int
  deriving DecidableEq

/-- Fresh store (cmd/consumer/main.go:783, NewRealTimeAnalytics): empty
buffers and maps, zero counter, LastCleanup = now. -/
def freshAnalytics (now : Int) : RealTimeAnalytics :=
  { events := [], pageViews := [], uniqueUsers := [], sessionsActive := []
  , eventsByType := [], hourlyData := [], loadTimes := [], deviceTypes := []
  , browserTypes := [], pageVisitors := [], lastCleanup := now, totalEvents := 0 }

/-- processPageView (service.go:91): bump PageViews, ensure and extend the
PageVisitors set, and append a metadata load_time capped at 1000 samples. -/
def processPageView (e : AnalyticsEvent) (s : RealTimeAnalytics) :
    RealTimeAnalytics :=
  let s1 := { s with pageViews := bumpKey s.pageViews e.url }
  let vis0 := if (s1.pageVisitors.find? (fun p => p.1 = e.url)).isSome then
      s1.pageVisitors else s1.pageVisitors.concat (e.url, [])
  let vis := if e.userID ≠ "" then
      vis0.map (fun p => if p.1 = e.url then (p.1, insertMem p.2 e.userID) else p)
    else vis0
  let s2 := { s1 with pageVisitors := vis }
  match e.loadTime with
  | some lt =>
      let lts := s2.loadTimes ++ [lt]
      { s2 with loadTimes := if lts.length > 1000 then lts.tail else lts }
  | none => s2

/-- processSession (service.go:119): bump classification counters from the
metadata device / browser strings when present and non-empty. -/
def processSession (e : AnalyticsEvent) (s : RealTimeAnalytics) :
    RealTimeAnalytics :=
  let s1 := match e.metaDevice with
    | some d => if d ≠ "" then { s with deviceTypes := bumpKey s.deviceTypes d } else s
    | none => s
  match e.metaBrowser with
  | some b => if b ≠ "" then { s1 with browserTypes := bumpKey s1.browserTypes b } else s1
  | none => s1

/-- processUserAgent (service.go:141): ordered case-insensitive substring
matching on the lowercased agent string; first match wins for the browser
chain and for the device chain. -/
def processUserAgent (userAgent : String) (s : RealTimeAnalytics) :
    RealTimeAnalytics :=
  let ua := lowerStr userAgent
  let s1 :=
    if strContains ua "chrome" then { s with browserTypes := bumpKey s.browserTypes "Chrome" }
    else if strContains ua "firefox" then { s with browserTypes := bumpKey s.browserTypes "Firefox" }
    else if strContains ua "safari" then { s with browserTypes := bumpKey s.browserTypes "Safari" }
    else if strContains ua "edge" then { s with browserTypes := bumpKey s.browserTypes "Edge" }
    else { s with browserTypes := bumpKey s.browserTypes "Other" }
  if strContains ua "mobile" || strContains ua "iphone" || strContains ua "android" then
    { s1 with deviceTypes := bumpKey s1.deviceTypes "Mobile" }
  else if strContains ua "tablet" || strContains ua "ipad" then
    { s1 with deviceTypes := bumpKey s1.deviceTypes "Tablet" }
  else { s1 with deviceTypes := bumpKey s1.deviceTypes "Desktop" }

/-- cleanup (service.go:168): evict sessions inactive for more than 30
minutes and hourly buckets whose hour is before the hour truncation of
now minus 48 hours. -/
def cleanup (now : Int) (s : RealTimeAnalytics) : RealTimeAnalytics :=
  { s with
    sessionsActive := s.sessionsActive.filter (fun p => !(now - p.2 > 1800))
  , hourlyData := s.hourlyData.filter (fun p => !(p.1 < truncHour (now - 172800))) }

/-- ProcessEvent step (service.go:36): append to the recent-events buffer,
keeping the last 100. -/
def appendRecent (e : AnalyticsEvent) (s : RealTimeAnalytics) : RealTimeAnalytics :=
  let ev := s.events ++ [e]
  { s with events := if ev.length > 100 then ev.tail else ev }

/-- ProcessEvent step (service.go:42): increment the total-events counter. -/
def incrTotal (s : RealTimeAnalytics) : RealTimeAnalytics :=
  { s with totalEvents := s.totalEvents + 1 }

/-- ProcessEvent step (service.go:45): count the event under its type. -/
def trackType (e : AnalyticsEvent) (s : RealTimeAnalytics) : RealTimeAnalytics :=
  { s with eventsByType := bumpKey s.eventsByType e.type }

/-- ProcessEvent step (service.go:48): record the user id when present. -/
def trackUser (e : AnalyticsEvent) (s : RealTimeAnalytics) : RealTimeAnalytics :=
  if e.userID ≠ "" then { s with uniqueUsers := insertMem s.uniqueUsers e.userID } else s

/-- ProcessEvent step (service.go:53): refresh the session activity stamp. -/
def trackSession (e : AnalyticsEvent) (s : RealTimeAnalytics) : RealTimeAnalytics :=
  if e.sessionID ≠ "" then
    { s with sessionsActive := setKey s.sessionsActive e.sessionID e.timestamp }
  else s

/-- ProcessEvent step (service.go:58): bump the hourly bucket of the
event timestamp truncated to the hour. -/
def trackHourly (e : AnalyticsEvent) (s : RealTimeAnalytics) : RealTimeAnalytics :=
  { s with hourlyData := bumpKey s.hourlyData (truncHour e.timestamp) }

/-- ProcessEvent step (service.go:62): the switch on the event type.
processClick (service.go:113) is a no-op; unknown types fall through. -/
def dispatchType (e : AnalyticsEvent) (s : RealTimeAnalytics) : RealTimeAnalytics :=
  if e.type = "page_view" then processPageView e s
  else if e.type = "click" then s
  else if e.type = "session" then processSession e s
  else s

/-- ProcessEvent step (service.go:77): agent classification when the agent
string is non-empty. -/
def trackAgent (e : AnalyticsEvent) (s : RealTimeAnalytics) : RealTimeAnalytics :=
  if e.userAgent ≠ "" then processUserAgent e.userAgent s else s

/-- ProcessEvent step (service.go:82): run cleanup when more than five
minutes have elapsed since the last cleanup, then stamp LastCleanup. -/
def maybeCleanup (now : Int) (s : RealTimeAnalytics) : RealTimeAnalytics :=
  if now - s.lastCleanup > 300 then { cleanup now s with lastCleanup := now } else s

/-- State effect of ProcessEvent (service.go:31), steps in source order.
now is the wall clock observed by time.Since / time.Now during the call. -/
def processEventState (now : Int) (e : AnalyticsEvent) (s : RealTimeAnalytics) :
    RealTimeAnalytics :=
  maybeCleanup now (trackAgent e (dispatchType e (trackHourly e (trackSession e
    (trackUser e (trackType e (incrTotal (appendRecent e s))))))))

/-- ProcessEvent (service.go:31): the Go method unconditionally returns nil;
the fallible signature is modelled with Except. -/
def ProcessEvent (now : Int) (e : AnalyticsEvent) (s : RealTimeAnalytics) :
    Except String RealTimeAnalytics :=
  .ok (processEventState now e s)

/-- Fold a sequence of (wall clock, event) ingestions over a store. -/
def applyAll (l : List (Int × AnalyticsEvent)) (s : RealTimeAnalytics) :
    RealTimeAnalytics :=
  l.foldl (fun st p => processEventState p.1 p.2 st) s

/-- Load-time summary (cmd/consumer/main.go:726, PerformanceMetrics). -/
structure PerformanceMetrics where
  averageLoadTime : ℚ
  medianLoadTime : ℚ
  slowPagesCount : Int
  fastPagesCount : Int
  deriving DecidableEq

/-- getPerformanceMetrics (service.go:362) on the LoadTimes buffer: the
empty buffer yields the zero record; otherwise arithmetic mean, the element
at index len/2 of an ascending sorted copy, and the strict greater-than-3000
partition counts. sort.Float64s is modelled by insertion sort, which yields
the same (unique) sorted permutation. -/
def getPerformanceMetrics (loadTimes : List ℚ) : PerformanceMetrics :=
  if loadTimes.length = 0 then
    { averageLoadTime := 0, medianLoadTime := 0, slowPagesCount := 0, fastPagesCount := 0 }
  else
    let sum := loadTimes.foldl (fun a b => a + b) 0
    let avg := sum / (loadTimes.length : ℚ)
    let sorted := List.insertionSort (fun a b => a ≤ b) loadTimes
    let median := sorted.getD (loadTimes.length / 2) 0
    let slowCount : Int := loadTimes.countP (fun x => decide (x > 3000))
    let fastCount : Int := loadTimes.countP (fun x => !(decide (x > 3000)))
    { averageLoadTime := avg, medianLoadTime := median
    , slowPagesCount := slowCount, fastPagesCount := fastCount }

/-- Intermediate page record of getTopPages (service.go:227, pageData). -/
structure PageData where
  url : String
  views : Int
  visitors : Int
  deriving DecidableEq

/-- Descending-views comparison used by the sort in getTopPages
(service.go:243): page a precedes page b when its view count is at least
b's. -/
def viewsGE (a b : PageData) : Prop := b.views ≤ a.views

instance : DecidableRel viewsGE :=
  fun a b => inferInstanceAs (Decidable (b.views ≤ a.views))

instance : IsTotal PageData viewsGE := ⟨fun a b => le_total b.views a.views⟩

instance : IsTrans PageData viewsGE := ⟨fun _ _ _ h1 h2 => le_trans h2 h1⟩

/-- Rendered page entry (cmd/consumer/main.go:694, PageMetric). The Path
field (url.Parse derived) is omitted; BounceRate is the constant 0 the
source writes (service.go:265). -/
structure PageMetric where
  url : String
  views : Int
  uniqueVisitors : Int
  bounceRate : ℚ
  deriving DecidableEq

/-- getTopPages (service.go:226): collect per-URL views and visitor-set
sizes, sort by views descending, keep the first 10. Go's sort.Slice leaves
the order of equal-view pages unspecified; insertion sort fixes one such
order. -/
def getTopPages (s : RealTimeAnalytics) : List PageMetric :=
  let pages := s.pageViews.map (fun p =>
    { url := p.1, views := p.2
    , visitors := match s.pageVisitors.find? (fun q => q.1 = p.1) with
        | some q => (q.2.length : Int)
        | none => 0 : PageData })
  let sorted := List.insertionSort viewsGE pages
  (sorted.take 10).map (fun p =>
    { url := p.url, views := p.views, uniqueVisitors := p.visitors, bounceRate := 0 })

/-- Snapshot (cmd/consumer/main.go:678, MetricsSnapshot). The wall-clock
Timestamp and the presentation sections no claim consults (TrafficSources,
DeviceStats, BrowserStats, HourlyPageViews, RealTimeEvents) are omitted. -/
structure MetricsSnapshot where
  totalEvents : Int
  uniqueUsers : Int
  activeSessions : Int
  eventsByType : List (String × Int)
  topPages : List PageMetric
  performanceMetrics : PerformanceMetrics
  deriving DecidableEq

/-- GetSnapshot (service.go:188) restricted to the embedded fields. -/
def GetSnapshot (s : RealTimeAnalytics) : MetricsSnapshot :=
  { totalEvents := s.totalEvents
  , uniqueUsers := (s.uniqueUsers.length : Int)
  , activeSessions := (s.sessionsActive.length : Int)
  , eventsByType := s.eventsByType
  , topPages := getTopPages s
  , performanceMetrics := getPerformanceMetrics s.loadTimes }

/-- Alert rule (cmd/consumer/main.go:746, AlertConfig). -/
structure AlertConfig where
  name : String
  type : String
  metric : String
  threshold : ℚ
  operator : String
  enabled : Bool
  windowMinutes : Int
  deriving DecidableEq

/-- Fired alert (cmd/consumer/main.go:734, Alert). The wall-clock ID,
Message and Timestamp presentation fields are omitted. -/
structure Alert where
  type : String
  severity : String
  resolved : Bool
  threshold : ℚ
  currentValue : ℚ
  deriving DecidableEq

/-- getMetricValue (service.go:459): the four recognized metric names;
anything else reads 0. -/
def getMetricValue (snapshot : MetricsSnapshot) (metric : String) : ℚ :=
  if metric = "total_events" then (snapshot.totalEvents : ℚ)
  else if metric = "unique_users" then (snapshot.uniqueUsers : ℚ)
  else if metric = "active_sessions" then (snapshot.activeSessions : ℚ)
  else if metric = "average_load_time" then snapshot.performanceMetrics.averageLoadTime
  else 0

/-- evaluateAlertCondition (service.go:475): gt, lt, eq; any other
comparison string yields false. -/
def evaluateAlertCondition (current threshold : ℚ) (op : String) : Bool :=
  if op = "gt" then decide (current > threshold)
  else if op = "lt" then decide (current < threshold)
  else if op = "eq" then decide (current = threshold)
  else false

/-- getAlertSeverity (service.go:495). -/
def getAlertSeverity (alertType : String) : String :=
  if alertType = "performance" then "medium"
  else if alertType = "traffic" then "low"
  else if alertType = "error" then "high"
  else "medium"

/-- The Alert record CheckAlerts builds for a triggered rule
(service.go:441), restricted to the embedded fields. -/
def mkAlert (snapshot : MetricsSnapshot) (config : AlertConfig) : Alert :=
  { type := config.type
  , severity := getAlertSeverity config.type
  , resolved := false
  , threshold := config.threshold
  , currentValue := getMetricValue snapshot config.metric }

/-- CheckAlerts (service.go:425): render a snapshot, then for each enabled
rule compare the extracted metric value against the threshold and collect
an alert when the condition holds. -/
def CheckAlerts (alerts : List AlertConfig) (s : RealTimeAnalytics) : List Alert :=
  let snapshot := GetSnapshot s
  alerts.foldl (fun acc config =>
    if !config.enabled then acc
    else if evaluateAlertCondition (getMetricValue snapshot config.metric)
        config.threshold config.operator then
      acc ++ [mkAlert snapshot config]
    else acc) []

/-- Broadcast payload carried on hub and client channels (hub.go: a
marshalled byte slice, opaque to the hub logic). -/
abbrev Payload := String

/-- Subscriber connection state (hub.go:45, Client): the buffered send
channel is a queue with a capacity, plus a closed flag; registered records
membership in the hub's clients map. -/
structure WSClient where
  id : Nat
  send : List Payload
  cap : Nat
  closed : Bool
  registered : Bool
  deriving DecidableEq

/-- Hub subscriber registry (hub.go:24): the clients map, modelled as the
list of all client records ever seen, with membership in the map recorded
by each record's registered flag. -/
structure Hub where
  clients : List WSClient
  deriving DecidableEq

/-- Effect of the broadcast case of Hub.Run (hub.go:104) on one client:
a registered client with queue room receives the message; a registered
client with a full queue goes through removeClient (hub.go:122), which
deletes it from the map and closes its channel; a client not in the map is
untouched. -/
def broadcastClientStep (message : Payload) (c : WSClient) : WSClient :=
  if c.registered then
    if c.send.length < c.cap then { c with send := c.send ++ [message] }
    else { c with registered := false, closed := true }
  else c

/-- The broadcast case of Hub.Run (hub.go:104): every client in the map is
visited once; removal of the visited client during iteration does not
affect the other entries. -/
def hubBroadcast (h : Hub) (message : Payload) : Hub :=
  { clients := h.clients.map (broadcastClientStep message) }

/-- Browser label of the spec's ordered matching chain (spec 4.1 step 8):
chrome, then firefox, then safari, then edge, else Other, case-insensitive,
first match wins. Stated from the spec's words for comparison with
processUserAgent. -/
def specBrowserClass (userAgent : String) : String :=
  let ua := lowerStr userAgent
  if strContains ua "chrome" then "Chrome"
  else if strContains ua "firefox" then "Firefox"
  else if strContains ua "safari" then "Safari"
  else if strContains ua "edge" then "Edge"
  else "Other"

/-- Device label of the spec's ordered matching chain (spec 4.1 step 8):
mobile / iphone / android, then tablet / ipad, else Desktop. Stated from
the spec's words for comparison with processUserAgent. -/
def specDeviceClass (userAgent : String) : String :=
  let ua := lowerStr userAgent
  if strContains ua "mobile" || strContains ua "iphone" || strContains ua "android" then "Mobile"
  else if strContains ua "tablet" || strContains ua "ipad" then "Tablet"
  else "Desktop"

/-- The load-time sample an ingested event contributes to the LoadTimes
buffer: present exactly for a page_view event whose metadata carries a
numeric load_time (service.go:62 and service.go:103). -/
def sampleOf (e : AnalyticsEvent) : Option ℚ :=
  if e.type = "page_view" then e.loadTime else none

/-- A minimal event carrying no optional data: a click with every optional
field absent. -/
def demoEvent : AnalyticsEvent :=
  { id := "e", type := "click", timestamp := 0, userID := "", sessionID := ""
  , url := "", userAgent := "", loadTime := none, metaDevice := none
  , metaBrowser := none }

/-- A page_view event carrying a numeric load_time sample. -/
def pvEvent : AnalyticsEvent :=
  { demoEvent with type := "page_view", loadTime := some 100 }

/-- An event whose type string is outside the EventType enum. -/
def mysteryEvent : AnalyticsEvent :=
  { demoEvent with type := "mystery" }

/-- The alert rule of the spec's firing example: total_events gt 2. -/
def demoRule : AlertConfig :=
  { name := "r", type := "traffic", metric := "total_events", threshold := 2
  , operator := "gt", enabled := true, windowMinutes := 0 }

/-- Store holding pages with view counts A:5, B:9, C:2 (spec 8 Top-N
determinism example). -/
def topPagesExampleState : RealTimeAnalytics :=
  { freshAnalytics 0 with pageViews := [("A", 5), ("B", 9), ("C", 2)] }

/-- Store holding two pages with the same view count. -/
def tiedPagesState : RealTimeAnalytics :=
  { freshAnalytics 0 with pageViews := [("a", 1), ("b", 1)] }

/-- Store holding one hourly bucket at hour 0 with last cleanup at 0. -/
def staleBucketState : RealTimeAnalytics :=
  { freshAnalytics 0 with hourlyData := [(0, 5)] }

/-- An event timestamped 48.5 hours after epoch. -/
def staleEvent : AnalyticsEvent := { demoEvent with timestamp := 174600 }

/-- A client agent string matching the safari needle and the iphone needle. -/
def uaDemo : String := "Mozilla/5.0 (iPhone; CPU iPhone OS) AppleWebKit Safari/604.1"

/-- A registered subscriber whose outbound queue has no room. -/
def fullClient : WSClient :=
  { id := 0, send := [], cap := 0, closed := false, registered := true }

/-- A hub holding exactly the one saturated subscriber. -/
def demoHub : Hub := { clients := [fullClient] }

theorem lookupD_bumpKey_self {κ : Type} [DecidableEq κ] (m : List (κ × Int)) (k : κ) :
    lookupD (bumpKey m k) k = lookupD m k + 1 := by
  induction m with
  | nil => simp [bumpKey, lookupD]
  | cons p rest ih =>
      by_cases h : p.1 = k <;> simp [bumpKey, lookupD, h, ih]

theorem lookupD_bumpKey_ne {κ : Type} [DecidableEq κ] (m : List (κ × Int)) (k j : κ)
    (h : j ≠ k) : lookupD (bumpKey m k) j = lookupD m j := by
  induction m with
  | nil => simp [bumpKey, lookupD, Ne.symm h]
  | cons p rest ih =>
      by_cases hp : p.1 = k
      · simp [bumpKey, lookupD, hp, Ne.symm h]
      · simp [bumpKey, lookupD, hp, ih]

theorem sumValues_bumpKey {κ : Type} [DecidableEq κ] (m : List (κ × Int)) (k : κ) :
    sumValues (bumpKey m k) = sumValues m + 1 := by
  induction m with
  | nil => simp [bumpKey, sumValues]
  | cons p rest ih =>
      by_cases h : p.1 = k <;> simp [bumpKey, sumValues, h] <;>
        simp [sumValues] at ih <;> omega

theorem mem_setKey_of_ne {κ : Type} [DecidableEq κ] {m : List (κ × Int)}
    {p : κ × Int} (hp : p ∈ m) (k : κ) (v : Int) (h : p.1 ≠ k) :
    p ∈ setKey m k v := by
  induction m with
  | nil => cases hp
  | cons q rest ih =>
      rcases List.mem_cons.1 hp with rfl | hmem
      · simp [setKey, fun hq : p.1 = k => h hq]
      · by_cases hq : q.1 = k <;> simp [setKey, hq]
        · exact Or.inr hmem
        · exact Or.inr (ih hmem)

theorem mem_bumpKey_of_ne {κ : Type} [DecidableEq κ] {m : List (κ × Int)}
    {p : κ × Int} (hp : p ∈ m) (k : κ) (h : p.1 ≠ k) :
    p ∈ bumpKey m k := by
  induction m with
  | nil => cases hp
  | cons q rest ih =>
      rcases List.mem_cons.1 hp with rfl | hmem
      · simp [bumpKey, fun hq : p.1 = k => h hq]
      · by_cases hq : q.1 = k <;> simp [bumpKey, hq]
        · exact Or.inr hmem
        · exact Or.inr (ih hmem)

theorem processUserAgent_eq (ua : String) (s : RealTimeAnalytics) :
    processUserAgent ua s =
      { s with browserTypes := bumpKey s.browserTypes (specBrowserClass ua)
             , deviceTypes := bumpKey s.deviceTypes (specDeviceClass ua) } := by
  simp only [processUserAgent, specBrowserClass, specDeviceClass]
  repeat' split
  all_goals rfl

theorem processSession_eq (e : AnalyticsEvent) (s : RealTimeAnalytics) :
    processSession e s =
      { s with
        deviceTypes := match e.metaDevice with
          | some d => if d ≠ "" then bumpKey s.deviceTypes d else s.deviceTypes
          | none => s.deviceTypes
      , browserTypes := match e.metaBrowser with
          | some b => if b ≠ "" then bumpKey s.browserTypes b else s.browserTypes
          | none => s.browserTypes } := by
  simp only [processSession]
  cases e.metaDevice <;> cases e.metaBrowser <;> repeat' split
  all_goals first | rfl | simp_all

theorem processPageView_eq (e : AnalyticsEvent) (s : RealTimeAnalytics) :
    processPageView e s =
      { s with
        pageViews := bumpKey s.pageViews e.url
      , pageVisitors :=
          (let vis0 := if (s.pageVisitors.find? (fun p => p.1 = e.url)).isSome then
              s.pageVisitors else s.pageVisitors.concat (e.url, [])
           if e.userID ≠ "" then
             vis0.map (fun p => if p.1 = e.url then (p.1, insertMem p.2 e.userID) else p)
           else vis0)
      , loadTimes := match e.loadTime with
          | some lt =>
              let lts := s.loadTimes ++ [lt]
              if lts.length > 1000 then lts.tail else lts
          | none => s.loadTimes } := by
  simp only [processPageView]
  cases e.loadTime <;> repeat' split
  all_goals rfl

section StepLemmas

variable (now : Int) (e : AnalyticsEvent) (s : RealTimeAnalytics)

theorem appendRecent_events : (appendRecent e s).events =
    (if (s.events ++ [e]).length > 100 then (s.events ++ [e]).tail
     else s.events ++ [e]) := rfl

theorem appendRecent_totalEvents : (appendRecent e s).totalEvents = s.totalEvents := rfl

theorem appendRecent_eventsByType : (appendRecent e s).eventsByType = s.eventsByType := rfl

theorem appendRecent_loadTimes : (appendRecent e s).loadTimes = s.loadTimes := rfl

theorem appendRecent_sessionsActive : (appendRecent e s).sessionsActive = s.sessionsActive := rfl

theorem appendRecent_hourlyData : (appendRecent e s).hourlyData = s.hourlyData := rfl

theorem appendRecent_lastCleanup : (appendRecent e s).lastCleanup = s.lastCleanup := rfl

theorem incrTotal_totalEvents : (incrTotal s).totalEvents = s.totalEvents + 1 := rfl

theorem incrTotal_events : (incrTotal s).events = s.events := rfl

theorem incrTotal_eventsByType : (incrTotal s).eventsByType = s.eventsByType := rfl

theorem incrTotal_loadTimes : (incrTotal s).loadTimes = s.loadTimes := rfl

theorem incrTotal_sessionsActive : (incrTotal s).sessionsActive = s.sessionsActive := rfl

theorem incrTotal_hourlyData : (incrTotal s).hourlyData = s.hourlyData := rfl

theorem incrTotal_lastCleanup : (incrTotal s).lastCleanup = s.lastCleanup := rfl

theorem trackType_eventsByType : (trackType e s).eventsByType =
    bumpKey s.eventsByType e.type := rfl

theorem trackType_events : (trackType e s).events = s.events := rfl

theorem trackType_totalEvents : (trackType e s).totalEvents = s.totalEvents := rfl

theorem trackType_loadTimes : (trackType e s).loadTimes = s.loadTimes := rfl

theorem trackType_sessionsActive : (trackType e s).sessionsActive = s.sessionsActive := rfl

theorem trackType_hourlyData : (trackType e s).hourlyData = s.hourlyData := rfl

theorem trackType_lastCleanup : (trackType e s).lastCleanup = s.lastCleanup := rfl

theorem trackUser_events : (trackUser e s).events = s.events := by
  unfold trackUser; split <;> rfl

theorem trackUser_totalEvents : (trackUser e s).totalEvents = s.totalEvents := by
  unfold trackUser; split <;> rfl

theorem trackUser_eventsByType : (trackUser e s).eventsByType = s.eventsByType := by
  unfold trackUser; split <;> rfl

theorem trackUser_loadTimes : (trackUser e s).loadTimes = s.loadTimes := by
  unfold trackUser; split <;> rfl

theorem trackUser_sessionsActive : (trackUser e s).sessionsActive = s.sessionsActive := by
  unfold trackUser; split <;> rfl

theorem trackUser_hourlyData : (trackUser e s).hourlyData = s.hourlyData := by
  unfold trackUser; split <;> rfl

theorem trackUser_lastCleanup : (trackUser e s).lastCleanup = s.lastCleanup := by
  unfold trackUser; split <;> rfl

theorem trackSession_sessionsActive : (trackSession e s).sessionsActive =
    (if e.sessionID ≠ "" then setKey s.sessionsActive e.sessionID e.timestamp
     else s.sessionsActive) := by
  unfold trackSession; split <;> rfl

theorem trackSession_events : (trackSession e s).events = s.events := by
  unfold trackSession; split <;> rfl

theorem trackSession_totalEvents : (trackSession e s).totalEvents = s.totalEvents := by
  unfold trackSession; split <;> rfl

theorem trackSession_eventsByType : (trackSession e s).eventsByType = s.eventsByType := by
  unfold trackSession; split <;> rfl

theorem trackSession_loadTimes : (trackSession e s).loadTimes = s.loadTimes := by
  unfold trackSession; split <;> rfl

theorem trackSession_hourlyData : (trackSession e s).hourlyData = s.hourlyData := by
  unfold trackSession; split <;> rfl

theorem trackSession_lastCleanup : (trackSession e s).lastCleanup = s.lastCleanup := by
  unfold trackSession; split <;> rfl

theorem trackHourly_hourlyData : (trackHourly e s).hourlyData =
    bumpKey s.hourlyData (truncHour e.timestamp) := rfl

theorem trackHourly_events : (trackHourly e s).events = s.events := rfl

theorem trackHourly_totalEvents : (trackHourly e s).totalEvents = s.totalEvents := rfl

theorem trackHourly_eventsByType : (trackHourly e s).eventsByType = s.eventsByType := rfl

theorem trackHourly_loadTimes : (trackHourly e s).loadTimes = s.loadTimes := rfl

theorem trackHourly_sessionsActive : (trackHourly e s).sessionsActive = s.sessionsActive := rfl

theorem trackHourly_lastCleanup : (trackHourly e s).lastCleanup = s.lastCleanup := rfl

theorem dispatchType_loadTimes : (dispatchType e s).loadTimes =
    (if e.type = "page_view" then
       (match e.loadTime with
        | some lt =>
            if (s.loadTimes ++ [lt]).length > 1000 then (s.loadTimes ++ [lt]).tail
            else s.loadTimes ++ [lt]
        | none => s.loadTimes)
     else s.loadTimes) := by
  unfold dispatchType
  repeat' split
  all_goals simp_all [processPageView_eq, processSession_eq]

theorem dispatchType_events : (dispatchType e s).events = s.events := by
  unfold dispatchType
  repeat' split
  all_goals simp [processPageView_eq, processSession_eq]

theorem dispatchType_totalEvents : (dispatchType e s).totalEvents = s.totalEvents := by
  unfold dispatchType
  repeat' split
  all_goals simp [processPageView_eq, processSession_eq]

theorem dispatchType_eventsByType : (dispatchType e s).eventsByType = s.eventsByType := by
  unfold dispatchType
  repeat' split
  all_goals simp [processPageView_eq, processSession_eq]

theorem dispatchType_sessionsActive : (dispatchType e s).sessionsActive = s.sessionsActive := by
  unfold dispatchType
  repeat' split
  all_goals simp [processPageView_eq, processSession_eq]

theorem dispatchType_hourlyData : (dispatchType e s).hourlyData = s.hourlyData := by
  unfold dispatchType
  repeat' split
  all_goals simp [processPageView_eq, processSession_eq]

theorem dispatchType_lastCleanup : (dispatchType e s).lastCleanup = s.lastCleanup := by
  unfold dispatchType
  repeat' split
  all_goals simp [processPageView_eq, processSession_eq]

theorem trackAgent_events : (trackAgent e s).events = s.events := by
  unfold trackAgent; split <;> simp [processUserAgent_eq]

theorem trackAgent_totalEvents : (trackAgent e s).totalEvents = s.totalEvents := by
  unfold trackAgent; split <;> simp [processUserAgent_eq]

theorem trackAgent_eventsByType : (trackAgent e s).eventsByType = s.eventsByType := by
  unfold trackAgent; split <;> simp [processUserAgent_eq]

theorem trackAgent_loadTimes : (trackAgent e s).loadTimes = s.loadTimes := by
  unfold trackAgent; split <;> simp [processUserAgent_eq]

theorem trackAgent_sessionsActive : (trackAgent e s).sessionsActive = s.sessionsActive := by
  unfold trackAgent; split <;> simp [processUserAgent_eq]

theorem trackAgent_hourlyData : (trackAgent e s).hourlyData = s.hourlyData := by
  unfold trackAgent; split <;> simp [processUserAgent_eq]

theorem trackAgent_lastCleanup : (trackAgent e s).lastCleanup = s.lastCleanup := by
  unfold trackAgent; split <;> simp [processUserAgent_eq]

theorem maybeCleanup_sessionsActive : (maybeCleanup now s).sessionsActive =
    (if now - s.lastCleanup > 300 then
       s.sessionsActive.filter (fun p => !(now - p.2 > 1800))
     else s.sessionsActive) := by
  unfold maybeCleanup cleanup; split <;> rfl

theorem maybeCleanup_hourlyData : (maybeCleanup now s).hourlyData =
    (if now - s.lastCleanup > 300 then
       s.hourlyData.filter (fun p => !(p.1 < truncHour (now - 172800)))
     else s.hourlyData) := by
  unfold maybeCleanup cleanup; split <;> rfl

theorem maybeCleanup_lastCleanup : (maybeCleanup now s).lastCleanup =
    (if now - s.lastCleanup > 300 then now else s.lastCleanup) := by
  unfold maybeCleanup cleanup; split <;> rfl

theorem maybeCleanup_events : (maybeCleanup now s).events = s.events := by
  unfold maybeCleanup cleanup; split <;> rfl

theorem maybeCleanup_totalEvents : (maybeCleanup now s).totalEvents = s.totalEvents := by
  unfold maybeCleanup cleanup; split <;> rfl

theorem maybeCleanup_eventsByType : (maybeCleanup now s).eventsByType = s.eventsByType := by
  unfold maybeCleanup cleanup; split <;> rfl

theorem maybeCleanup_loadTimes : (maybeCleanup now s).loadTimes = s.loadTimes := by
  unfold maybeCleanup cleanup; split <;> rfl

end StepLemmas

section CompositeLemmas

variable (now : Int) (e : AnalyticsEvent) (s : RealTimeAnalytics)

theorem pes_totalEvents : (processEventState now e s).totalEvents = s.totalEvents + 1 := by
  simp only [processEventState, maybeCleanup_totalEvents, trackAgent_totalEvents,
    dispatchType_totalEvents, trackHourly_totalEvents, trackSession_totalEvents,
    trackUser_totalEvents, trackType_totalEvents, incrTotal_totalEvents,
    appendRecent_totalEvents]

theorem pes_eventsByType : (processEventState now e s).eventsByType =
    bumpKey s.eventsByType e.type := by
  simp only [processEventState, maybeCleanup_eventsByType, trackAgent_eventsByType,
    dispatchType_eventsByType, trackHourly_eventsByType, trackSession_eventsByType,
    trackUser_eventsByType, trackType_eventsByType, incrTotal_eventsByType,
    appendRecent_eventsByType]

theorem pes_events : (processEventState now e s).events =
    (if (s.events ++ [e]).length > 100 then (s.events ++ [e]).tail
     else s.events ++ [e]) := by
  simp only [processEventState, maybeCleanup_events, trackAgent_events,
    dispatchType_events, trackHourly_events, trackSession_events,
    trackUser_events, trackType_events, incrTotal_events, appendRecent_events]

theorem pes_loadTimes : (processEventState now e s).loadTimes =
    (if e.type = "page_view" then
       (match e.loadTime with
        | some lt =>
            if (s.loadTimes ++ [lt]).length > 1000 then (s.loadTimes ++ [lt]).tail
            else s.loadTimes ++ [lt]
        | none => s.loadTimes)
     else s.loadTimes) := by
  simp only [processEventState, maybeCleanup_loadTimes, trackAgent_loadTimes,
    dispatchType_loadTimes, trackHourly_loadTimes, trackSession_loadTimes,
    trackUser_loadTimes, trackType_loadTimes, incrTotal_loadTimes,
    appendRecent_loadTimes]

theorem pes_lastCleanup : (processEventState now e s).lastCleanup =
    (if now - s.lastCleanup > 300 then now else s.lastCleanup) := by
  simp only [processEventState, maybeCleanup_lastCleanup, trackAgent_lastCleanup,
    dispatchType_lastCleanup, trackHourly_lastCleanup, trackSession_lastCleanup,
    trackUser_lastCleanup, trackType_lastCleanup, incrTotal_lastCleanup,
    appendRecent_lastCleanup]

theorem pes_sessionsActive : (processEventState now e s).sessionsActive =
    (if now - s.lastCleanup > 300 then
       (if e.sessionID ≠ "" then setKey s.sessionsActive e.sessionID e.timestamp
        else s.sessionsActive).filter (fun p => !(now - p.2 > 1800))
     else
       (if e.sessionID ≠ "" then setKey s.sessionsActive e.sessionID e.timestamp
        else s.sessionsActive)) := by
  simp only [processEventState, maybeCleanup_sessionsActive, trackAgent_sessionsActive,
    dispatchType_sessionsActive, trackHourly_sessionsActive, trackSession_sessionsActive,
    trackUser_sessionsActive, trackType_sessionsActive, incrTotal_sessionsActive,
    appendRecent_sessionsActive, trackAgent_lastCleanup, dispatchType_lastCleanup,
    trackHourly_lastCleanup, trackSession_lastCleanup, trackUser_lastCleanup,
    trackType_lastCleanup, incrTotal_lastCleanup, appendRecent_lastCleanup]

theorem pes_hourlyData : (processEventState now e s).hourlyData =
    (if now - s.lastCleanup > 300 then
       (bumpKey s.hourlyData (truncHour e.timestamp)).filter
         (fun p => !(p.1 < truncHour (now - 172800)))
     else bumpKey s.hourlyData (truncHour e.timestamp)) := by
  simp only [processEventState, maybeCleanup_hourlyData, trackAgent_hourlyData,
    dispatchType_hourlyData, trackHourly_hourlyData, trackSession_hourlyData,
    trackUser_hourlyData, trackType_hourlyData, incrTotal_hourlyData,
    appendRecent_hourlyData, trackAgent_lastCleanup, dispatchType_lastCleanup,
    trackHourly_lastCleanup, trackSession_lastCleanup, trackUser_lastCleanup,
    trackType_lastCleanup, incrTotal_lastCleanup, appendRecent_lastCleanup]

end CompositeLemmas

theorem applyAll_append (l : List (Int × AnalyticsEvent)) (p : Int × AnalyticsEvent)
    (s : RealTimeAnalytics) :
    applyAll (l ++ [p]) s = processEventState p.1 p.2 (applyAll l s) := by
  simp [applyAll, List.foldl_append]

theorem applyAll_cons (p : Int × AnalyticsEvent) (l : List (Int × AnalyticsEvent))
    (s : RealTimeAnalytics) :
    applyAll (p :: l) s = applyAll l (processEventState p.1 p.2 s) := rfl

theorem applyAll_totalEvents (l : List (Int × AnalyticsEvent)) (s : RealTimeAnalytics) :
    (applyAll l s).totalEvents = s.totalEvents + l.length := by
  induction l generalizing s with
  | nil => simp [applyAll]
  | cons p rest ih =>
      rw [applyAll_cons, ih, pes_totalEvents]
      simp only [List.length_cons]
      push_cast
      ring

theorem applyAll_sum_eventsByType (l : List (Int × AnalyticsEvent)) (s : RealTimeAnalytics)
    (h : sumValues s.eventsByType = s.totalEvents) :
    sumValues (applyAll l s).eventsByType = (applyAll l s).totalEvents := by
  induction l generalizing s with
  | nil => simpa [applyAll]
  | cons p rest ih =>
      rw [applyAll_cons]
      exact ih _ (by rw [pes_eventsByType, pes_totalEvents, sumValues_bumpKey, h])

theorem cappedAppend_drop {α : Type} (S : List α) (x : α) (cap : ℕ) (hcap : 0 < cap) :
    (if ((S.drop (S.length - cap)) ++ [x]).length > cap then
       ((S.drop (S.length - cap)) ++ [x]).tail
     else (S.drop (S.length - cap)) ++ [x]) =
      (S ++ [x]).drop ((S ++ [x]).length - cap) := by
  rcases le_or_lt cap S.length with h | h
  · have h1 : (S.drop (S.length - cap)).length = cap := by
      rw [List.length_drop]; omega
    have hcond : ((S.drop (S.length - cap)) ++ [x]).length > cap := by
      simp [h1]
    rw [if_pos hcond, ← List.drop_one,
      List.drop_append_of_le_length (by omega : 1 ≤ (S.drop (S.length - cap)).length),
      List.drop_drop]
    have h2 : (S ++ [x]).length - cap = S.length + 1 - cap := by simp
    rw [h2, List.drop_append_of_le_length (by omega : S.length + 1 - cap ≤ S.length)]
    have h3 : S.length - cap + 1 = S.length + 1 - cap := by omega
    rw [h3]
  · have h0 : S.length - cap = 0 := by omega
    have hcond : ¬ ((S.drop (S.length - cap)) ++ [x]).length > cap := by
      rw [h0, List.drop_zero]
      simp
      omega
    rw [if_neg hcond, h0, List.drop_zero]
    have h4 : (S ++ [x]).length - cap = 0 := by simp; omega
    rw [h4, List.drop_zero]

theorem applyAll_events_fresh (t0 : Int) (l : List (Int × AnalyticsEvent)) :
    (applyAll l (freshAnalytics t0)).events =
      (l.map (fun p => p.2)).drop ((l.map (fun p => p.2)).length - 100) := by
  induction l using List.reverseRecOn with
  | nil => simp [applyAll, freshAnalytics]
  | append_singleton rest p ih =>
      rw [applyAll_append, pes_events, ih]
      simp only [List.map_append, List.map_cons, List.map_nil]
      apply cappedAppend_drop
      norm_num

theorem applyAll_loadTimes_fresh (t0 : Int) (l : List (Int × AnalyticsEvent)) :
    (applyAll l (freshAnalytics t0)).loadTimes =
      (l.filterMap (fun p => sampleOf p.2)).drop
        ((l.filterMap (fun p => sampleOf p.2)).length - 1000) := by
  induction l using List.reverseRecOn with
  | nil => simp [applyAll, freshAnalytics]
  | append_singleton rest p ih =>
      rw [applyAll_append, pes_loadTimes, ih]
      simp only [List.filterMap_append]
      by_cases ht : p.2.type = "page_view"
      · cases hl : p.2.loadTime with
        | none => simp [sampleOf, ht, hl]
        | some lt =>
            have hs : List.filterMap (fun q => sampleOf q.2) [p] = [lt] := by
              simp [sampleOf, ht, hl]
            rw [hs]
            simp only [ht, if_true, hl]
            apply cappedAppend_drop
            norm_num
      · simp [sampleOf, ht]

theorem length_filterMap_sampleOf (l : List (Int × AnalyticsEvent))
    (h : ∀ p ∈ l, (sampleOf p.2).isSome) :
    (l.filterMap (fun p => sampleOf p.2)).length = l.length := by
  induction l with
  | nil => simp
  | cons p rest ih =>
      obtain ⟨x, hx⟩ := Option.isSome_iff_exists.1 (h p (List.mem_cons_self p rest))
      simp [List.filterMap_cons, hx,
        ih (fun q hq => h q (List.mem_cons_of_mem p hq))]

theorem forall2_map_self {α β : Type} (f : α → β) (R : α → β → Prop)
    (h : ∀ a, R a (f a)) : ∀ l : List α, List.Forall₂ R l (l.map f)
  | [] => List.Forall₂.nil
  | a :: l => List.Forall₂.cons (h a) (forall2_map_self f R h l)

theorem insertionSort_eq_of_sorted (l srt : List ℚ) (hp : srt.Perm l)
    (hs : srt.Sorted (fun a b : ℚ => a ≤ b)) :
    List.insertionSort (fun a b : ℚ => a ≤ b) l = srt :=
  List.eq_of_perm_of_sorted
    ((List.perm_insertionSort (fun a b : ℚ => a ≤ b) l).trans hp.symm)
    (List.sorted_insertionSort (fun a b : ℚ => a ≤ b) l) hs

theorem checkAlerts_eq (alerts : List AlertConfig) (s : RealTimeAnalytics) :
    CheckAlerts alerts s =
      (alerts.filter (fun a => a.enabled && evaluateAlertCondition
          (getMetricValue (GetSnapshot s) a.metric) a.threshold a.operator)).map
        (mkAlert (GetSnapshot s)) := by
  have aux : ∀ (snap : MetricsSnapshot) (al : List AlertConfig) (acc : List Alert),
      al.foldl (fun acc config =>
        if !config.enabled then acc
        else if evaluateAlertCondition (getMetricValue snap config.metric)
            config.threshold config.operator then
          acc ++ [mkAlert snap config]
        else acc) acc =
        acc ++ (al.filter (fun a => a.enabled && evaluateAlertCondition
            (getMetricValue snap a.metric) a.threshold a.operator)).map (mkAlert snap) := by
    intro snap al
    induction al with
    | nil => intro acc; simp
    | cons a rest ih =>
        intro acc
        cases he : a.enabled <;>
          cases hc : evaluateAlertCondition (getMetricValue snap a.metric)
            a.threshold a.operator
        · simpa [he, hc, List.filter_cons] using ih acc
        · simpa [he, hc, List.filter_cons] using ih acc
        · simpa [he, hc, List.filter_cons] using ih acc
        · simpa [he, hc, List.filter_cons, List.append_assoc] using
            ih (acc ++ [mkAlert snap a])
  simpa [CheckAlerts] using aux (GetSnapshot s) alerts []

/-- C1, counterexample: for the even-length buffer [1, 2] the code's median
is the element at the upper-middle index 1 of the sorted copy (value 2),
not the element at the lower-middle index 0 (value 1) that the claim
names. -/
theorem claim_c1_counterexample :
    ¬ ((getPerformanceMetrics [1, 2]).medianLoadTime =
        (List.insertionSort (fun a b : ℚ => a ≤ b) [1, 2]).getD 0 0) := by
  decide

/-- C1, amended: for every non-empty load_times buffer, MedianLoadTime is
the element at index k of any ascending sorted copy, where the length is
2k+1 (odd) or 2k (even, the upper-middle index); SlowPagesCount counts the
samples strictly greater than 3000 and FastPagesCount counts the rest. -/
theorem claim_c1 (l srt : List ℚ) (k : ℕ) (hp : srt.Perm l)
    (hs : srt.Sorted (fun a b : ℚ => a ≤ b)) :
    (l.length = 2 * k + 1 → (getPerformanceMetrics l).medianLoadTime = srt.getD k 0)
    ∧ (l.length = 2 * k → 0 < k → (getPerformanceMetrics l).medianLoadTime = srt.getD k 0)
    ∧ (l ≠ [] →
        (getPerformanceMetrics l).slowPagesCount =
          (l.countP (fun x => decide (3000 < x)) : Int)
        ∧ (getPerformanceMetrics l).fastPagesCount =
          (l.countP (fun x => decide (x ≤ 3000)) : Int)) := by
  have hmed : ∀ hne : ¬ l.length = 0, (getPerformanceMetrics l).medianLoadTime =
      (List.insertionSort (fun a b : ℚ => a ≤ b) l).getD (l.length / 2) 0 := by
    intro hne
    simp [getPerformanceMetrics, hne]
  refine ⟨?_, ?_, ?_⟩
  · intro h1
    rw [hmed (by omega), insertionSort_eq_of_sorted l srt hp hs]
    congr 1
    omega
  · intro h2 hk
    rw [hmed (by omega), insertionSort_eq_of_sorted l srt hp hs]
    congr 1
    omega
  · intro hne
    have h0 : ¬ l.length = 0 := by simpa [List.length_eq_zero] using hne
    constructor
    · simp [getPerformanceMetrics, h0]
    · have hcnt : l.countP (fun x => !(decide (x > 3000))) =
          l.countP (fun x => decide (x ≤ 3000)) := by
        refine List.countP_congr ?_
        intro x _
        by_cases hx : (3000 : ℚ) < x
        · simp [hx, not_le.mpr hx]
        · simp [hx, not_lt.mp hx]
      simp [getPerformanceMetrics, h0, hcnt]

/-- C1, witness: the theorem applied to the buffer [2, 1], its sorted copy
[1, 2] and k = 1. -/
theorem claim_c1_witness :
    ([1, 2] : List ℚ).Perm [2, 1]
    ∧ ([1, 2] : List ℚ).Sorted (fun a b : ℚ => a ≤ b)
    ∧ ([2, 1] : List ℚ).length = 2 * 1
    ∧ (getPerformanceMetrics [2, 1]).medianLoadTime = ([1, 2] : List ℚ).getD 1 0 :=
  ⟨by decide, by decide, by decide,
    (claim_c1 [2, 1] [1, 2] 1 (by decide) (by decide)).2.1 (by decide) (by decide)⟩

/-- C2, counterexample: broadcasting to a hub whose only subscriber has a
full queue removes that subscriber from the set and closes its queue,
contradicting the claim that a skipped subscriber stays registered with
its queue open. -/
theorem claim_c2_counterexample :
    fullClient.registered = true
    ∧ ¬ fullClient.send.length < fullClient.cap
    ∧ (hubBroadcast demoHub "x").clients =
        [{ id := 0, send := [], cap := 0, closed := true, registered := false }] := by
  decide

/-- C2, amended: processing a broadcast visits every client record once:
a registered subscriber with queue room receives exactly the payload
appended to its queue, a registered subscriber with a full queue is
removed from the subscriber set and its queue is closed, and a client not
in the set is untouched. -/
theorem claim_c2 (hub : Hub) (m : Payload) :
    List.Forall₂ (fun c c' : WSClient =>
        (c.registered = true → c.send.length < c.cap →
          c' = { c with send := c.send ++ [m] })
        ∧ (c.registered = true → ¬ c.send.length < c.cap →
          c' = { c with registered := false, closed := true })
        ∧ (c.registered = false → c' = c))
      hub.clients (hubBroadcast hub m).clients := by
  apply forall2_map_self
  intro c
  refine ⟨?_, ?_, ?_⟩
  · intro hr hroom
    simp [broadcastClientStep, hr, hroom]
  · intro hr hfull
    simp [broadcastClientStep, hr, hfull]
  · intro hr
    simp [broadcastClientStep, hr]

/-- C2, witness: the amended theorem applied to the one-subscriber hub with
a saturated queue. -/
theorem claim_c2_witness :
    List.Forall₂ (fun c c' : WSClient =>
        (c.registered = true → c.send.length < c.cap →
          c' = { c with send := c.send ++ ["x"] })
        ∧ (c.registered = true → ¬ c.send.length < c.cap →
          c' = { c with registered := false, closed := true })
        ∧ (c.registered = false → c' = c))
      demoHub.clients (hubBroadcast demoHub "x").clients :=
  claim_c2 demoHub "x"

/-- C3, counterexample: the event type outside the enum is accepted without
error but is counted under its own type string, and the count under the
type custom stays 0; the enum itself (pkg/models events.go) reads
page_view, click, session, user_event, with no custom value. -/
theorem claim_c3_counterexample :
    ProcessEvent 0 mysteryEvent (freshAnalytics 0) =
      .ok (processEventState 0 mysteryEvent (freshAnalytics 0))
    ∧ lookupD (processEventState 0 mysteryEvent (freshAnalytics 0)).eventsByType
        "custom" = 0
    ∧ lookupD (processEventState 0 mysteryEvent (freshAnalytics 0)).eventsByType
        "mystery" = 1 := by
  refine ⟨rfl, ?_, ?_⟩ <;> decide

/-- C3, amended: an event whose type string is outside the enum values
page_view, click, session, user_event is accepted without error, its count
is recorded under its own type string, and the count under every other
type string, custom included, is unchanged. -/
theorem claim_c3 (now : Int) (e : AnalyticsEvent) (s : RealTimeAnalytics)
    (h : e.type ∉ (["page_view", "click", "session", "user_event"] : List String)) :
    ProcessEvent now e s = .ok (processEventState now e s)
    ∧ lookupD (processEventState now e s).eventsByType e.type =
        lookupD s.eventsByType e.type + 1
    ∧ ∀ t : String, t ≠ e.type →
        lookupD (processEventState now e s).eventsByType t = lookupD s.eventsByType t := by
  refine ⟨rfl, ?_, ?_⟩
  · rw [pes_eventsByType, lookupD_bumpKey_self]
  · intro t ht
    rw [pes_eventsByType, lookupD_bumpKey_ne _ _ _ ht]

/-- C3, witness: the amended theorem applied to the mystery-typed event on
the fresh store. -/
theorem claim_c3_witness :
    mysteryEvent.type ∉ (["page_view", "click", "session", "user_event"] : List String)
    ∧ lookupD (processEventState 0 mysteryEvent (freshAnalytics 0)).eventsByType
        mysteryEvent.type =
      lookupD (freshAnalytics 0).eventsByType mysteryEvent.type + 1 :=
  ⟨by decide, (claim_c3 0 mysteryEvent (freshAnalytics 0) (by decide)).2.1⟩

/-- C4: after any sequence of ProcessEvent calls on a fresh store,
total_events equals the number of calls, and at the reached state the sum
over all keys of events_by_type equals total_events. -/
theorem claim_c4 (t0 : Int) (l : List (Int × AnalyticsEvent)) :
    (applyAll l (freshAnalytics t0)).totalEvents = (l.length : Int)
    ∧ sumValues (applyAll l (freshAnalytics t0)).eventsByType =
        (applyAll l (freshAnalytics t0)).totalEvents := by
  constructor
  · rw [applyAll_totalEvents]
    simp [freshAnalytics]
  · apply applyAll_sum_eventsByType
    simp [freshAnalytics, sumValues]

/-- C4, witness: the theorem applied to a two-call sequence. -/
theorem claim_c4_witness :
    (applyAll [((0:Int), demoEvent), ((0:Int), demoEvent)] (freshAnalytics 0)).totalEvents =
      (([((0:Int), demoEvent), ((0:Int), demoEvent)] :
        List (Int × AnalyticsEvent)).length : Int)
    ∧ sumValues (applyAll [((0:Int), demoEvent), ((0:Int), demoEvent)]
        (freshAnalytics 0)).eventsByType =
      (applyAll [((0:Int), demoEvent), ((0:Int), demoEvent)] (freshAnalytics 0)).totalEvents :=
  claim_c4 0 [((0:Int), demoEvent), ((0:Int), demoEvent)]

/-- C5: from a fresh store, the recent-events buffer never exceeds 100
entries and the load-times buffer never exceeds 1000; after 150 ingestions
the recent-events buffer is exactly the last 100 ingested records in
order, and after 1200 page_view ingestions each carrying a load_time
sample the load-times buffer holds exactly 1000 samples. -/
theorem claim_c5 (t0 : Int) (l : List (Int × AnalyticsEvent)) :
    (applyAll l (freshAnalytics t0)).events.length ≤ 100
    ∧ (applyAll l (freshAnalytics t0)).loadTimes.length ≤ 1000
    ∧ (l.length = 150 →
        (applyAll l (freshAnalytics t0)).events = (l.map (fun p => p.2)).drop 50)
    ∧ ((∀ p ∈ l, p.2.type = "page_view" ∧ p.2.loadTime.isSome) → l.length = 1200 →
        (applyAll l (freshAnalytics t0)).loadTimes.length = 1000) := by
  refine ⟨?_, ?_, ?_, ?_⟩
  · rw [applyAll_events_fresh]
    simp only [List.length_drop]
    omega
  · rw [applyAll_loadTimes_fresh]
    simp only [List.length_drop]
    omega
  · intro h
    rw [applyAll_events_fresh]
    simp [List.length_map, h]
  · intro hall h
    rw [applyAll_loadTimes_fresh, List.length_drop]
    have hl : (l.filterMap (fun p => sampleOf p.2)).length = l.length := by
      apply length_filterMap_sampleOf
      intro p hp
      have h1 := (hall p hp).1
      have h2 := (hall p hp).2
      simpa [sampleOf, h1] using h2
    rw [hl, h]

/-- C5, witness: the theorem applied to 150 minimal events and to 1200
page_view events carrying load-time samples. -/
theorem claim_c5_witness :
    (List.replicate 150 ((0:Int), demoEvent)).length = 150
    ∧ (applyAll (List.replicate 150 ((0:Int), demoEvent)) (freshAnalytics 0)).events =
        ((List.replicate 150 ((0:Int), demoEvent)).map (fun p => p.2)).drop 50
    ∧ (∀ p ∈ List.replicate 1200 ((0:Int), pvEvent),
        p.2.type = "page_view" ∧ p.2.loadTime.isSome)
    ∧ (applyAll (List.replicate 1200 ((0:Int), pvEvent))
        (freshAnalytics 0)).loadTimes.length = 1000 :=
  by
  have hall : ∀ p ∈ List.replicate 1200 ((0:Int), pvEvent),
      p.2.type = "page_view" ∧ p.2.loadTime.isSome := by
    intro p hp
    rw [List.eq_of_mem_replicate hp]
    exact ⟨rfl, rfl⟩
  exact ⟨by rw [List.length_replicate],
    (claim_c5 0 (List.replicate 150 ((0:Int), demoEvent))).2.2.1
      (by rw [List.length_replicate]),
    hall,
    (claim_c5 0 (List.replicate 1200 ((0:Int), pvEvent))).2.2.2 hall
      (by rw [List.length_replicate])⟩

/-- C6: CheckAlerts emits exactly one alert per enabled rule whose
comparison holds, in rule order; the operators gt, lt, eq compare the
extracted value against the threshold; a metric name outside the four
recognized names extracts 0; and the rule total_events gt 2 fires after
three ingestions and not after two. -/
theorem claim_c6 :
    (∀ (alerts : List AlertConfig) (s : RealTimeAnalytics),
        CheckAlerts alerts s =
          (alerts.filter (fun a => a.enabled && evaluateAlertCondition
              (getMetricValue (GetSnapshot s) a.metric) a.threshold a.operator)).map
            (mkAlert (GetSnapshot s)))
    ∧ (∀ c t : ℚ, evaluateAlertCondition c t "gt" = decide (c > t)
        ∧ evaluateAlertCondition c t "lt" = decide (c < t)
        ∧ evaluateAlertCondition c t "eq" = decide (c = t))
    ∧ (∀ (snap : MetricsSnapshot) (metric : String),
        metric ≠ "total_events" → metric ≠ "unique_users" →
        metric ≠ "active_sessions" → metric ≠ "average_load_time" →
        getMetricValue snap metric = 0)
    ∧ CheckAlerts [demoRule]
        (applyAll (List.replicate 3 ((0:Int), demoEvent)) (freshAnalytics 0)) ≠ []
    ∧ CheckAlerts [demoRule]
        (applyAll (List.replicate 2 ((0:Int), demoEvent)) (freshAnalytics 0)) = [] := by
  refine ⟨checkAlerts_eq, ?_, ?_, by decide, by decide⟩
  · intro c t
    refine ⟨rfl, rfl, rfl⟩
  · intro snap metric h1 h2 h3 h4
    simp [getMetricValue, h1, h2, h3, h4]

/-- C6, witness: an unrecognized metric name extracts the value 0 on the
fresh store's snapshot. -/
theorem claim_c6_witness :
    ("bogus" : String) ≠ "total_events"
    ∧ getMetricValue (GetSnapshot (freshAnalytics 0)) "bogus" = 0 :=
  ⟨by decide,
   claim_c6.2.2.1 (GetSnapshot (freshAnalytics 0)) "bogus"
     (by decide) (by decide) (by decide) (by decide)⟩

/-- C7, counterexample: with two pages holding the same view count the
rendered top-pages list is not strictly descending in views, so the claim
of strictly descending order fails on ties. -/
theorem claim_c7_counterexample :
    ¬ List.Pairwise (fun a b : PageMetric => b.views < a.views)
      (getTopPages tiedPagesState) := by
  decide

/-- C7, amended: for every store the top_pages list is sorted by view
count in non-increasing (descending, ties allowed) order and holds at most
10 entries; for pages with view counts A:5, B:9, C:2 it orders B, A, C. -/
theorem claim_c7 :
    (∀ s : RealTimeAnalytics,
        List.Pairwise (fun a b : PageMetric => b.views ≤ a.views) (getTopPages s)
        ∧ (getTopPages s).length ≤ 10)
    ∧ (getTopPages topPagesExampleState).map (fun p => p.url) = ["B", "A", "C"] := by
  constructor
  · intro s
    constructor
    · unfold getTopPages
      apply List.Pairwise.map
      · intro a b hab
        exact hab
      · exact List.Pairwise.sublist (List.take_sublist 10 _)
          (List.sorted_insertionSort viewsGE _)
    · unfold getTopPages
      simp only [List.length_map, List.length_take]
      omega
  · decide

/-- C7, witness: the amended theorem applied to the example store. -/
theorem claim_c7_witness :
    List.Pairwise (fun a b : PageMetric => b.views ≤ a.views)
      (getTopPages topPagesExampleState)
    ∧ (getTopPages topPagesExampleState).length ≤ 10 :=
  claim_c7.1 topPagesExampleState

/-- C8: processing a client agent string bumps the browser counter at
exactly the label chosen by the ordered case-insensitive chain chrome,
firefox, safari, edge, else Other, and the device counter at exactly the
label chosen by the chain mobile / iphone / android, tablet / ipad, else
Desktop; every other counter is unchanged and each family's total rises by
exactly one. -/
theorem claim_c8 (ua : String) (s : RealTimeAnalytics) :
    (processUserAgent ua s).browserTypes = bumpKey s.browserTypes (specBrowserClass ua)
    ∧ (processUserAgent ua s).deviceTypes = bumpKey s.deviceTypes (specDeviceClass ua)
    ∧ lookupD (processUserAgent ua s).browserTypes (specBrowserClass ua) =
        lookupD s.browserTypes (specBrowserClass ua) + 1
    ∧ (∀ b, b ≠ specBrowserClass ua →
        lookupD (processUserAgent ua s).browserTypes b = lookupD s.browserTypes b)
    ∧ lookupD (processUserAgent ua s).deviceTypes (specDeviceClass ua) =
        lookupD s.deviceTypes (specDeviceClass ua) + 1
    ∧ (∀ d, d ≠ specDeviceClass ua →
        lookupD (processUserAgent ua s).deviceTypes d = lookupD s.deviceTypes d)
    ∧ sumValues (processUserAgent ua s).browserTypes = sumValues s.browserTypes + 1
    ∧ sumValues (processUserAgent ua s).deviceTypes = sumValues s.deviceTypes + 1 := by
  rw [processUserAgent_eq]
  refine ⟨rfl, rfl, ?_, ?_, ?_, ?_, ?_, ?_⟩
  · exact lookupD_bumpKey_self _ _
  · intro b hb
    exact lookupD_bumpKey_ne _ _ _ hb
  · exact lookupD_bumpKey_self _ _
  · intro d hd
    exact lookupD_bumpKey_ne _ _ _ hd
  · exact sumValues_bumpKey _ _
  · exact sumValues_bumpKey _ _

/-- C8, witness: the theorem applied to an agent string containing the
safari and iphone needles, on the fresh store; the chain picks Safari and
Mobile. -/
theorem claim_c8_witness :
    specBrowserClass uaDemo = "Safari"
    ∧ specDeviceClass uaDemo = "Mobile"
    ∧ (processUserAgent uaDemo (freshAnalytics 0)).browserTypes =
        bumpKey (freshAnalytics 0).browserTypes (specBrowserClass uaDemo) :=
  ⟨by decide, by decide, (claim_c8 uaDemo (freshAnalytics 0)).1⟩

/-- C9, counterexample: processing an event at 174600 s (48.5 h) with last
cleanup at 0 runs a cleanup pass (it stamps LastCleanup), yet the hourly
bucket at hour 0, which is 174600 s old — more than the 172800 s of 48
hours — survives, because the eviction cutoff is the hour truncation of
now minus 48 h, which is hour 0 itself. -/
theorem claim_c9_counterexample :
    174600 - staleBucketState.lastCleanup > 300
    ∧ (processEventState 174600 staleEvent staleBucketState).lastCleanup = 174600
    ∧ (174600 : Int) - 0 > 172800
    ∧ ((0 : Int), (5 : Int)) ∈
        (processEventState 174600 staleEvent staleBucketState).hourlyData := by
  refine ⟨by decide, by decide, by decide, by decide⟩

/-- C9, amended: during ProcessEvent a cleanup pass runs exactly when more
than 5 minutes (300 s) have elapsed since last_cleanup. When it runs,
LastCleanup is stamped to now, every surviving session was active within
30 minutes (sessions inactive for more than 30 minutes are evicted), every
session entry not overwritten by this event and active within 30 minutes
survives, every surviving hourly bucket lies at or after the hour
truncation of now minus 48 hours, and every bucket not bumped by this
event lying at or after that cutoff survives. When it does not run,
LastCleanup and all session and hourly entries not touched by this event
are unchanged. -/
theorem claim_c9 (now : Int) (e : AnalyticsEvent) (s : RealTimeAnalytics) :
    ((now - s.lastCleanup > 300) →
       ((processEventState now e s).lastCleanup = now
        ∧ (∀ p ∈ (processEventState now e s).sessionsActive, now - p.2 ≤ 1800)
        ∧ (∀ p ∈ s.sessionsActive, p.1 ≠ e.sessionID → now - p.2 ≤ 1800 →
            p ∈ (processEventState now e s).sessionsActive)
        ∧ (∀ q ∈ (processEventState now e s).hourlyData, truncHour (now - 172800) ≤ q.1)
        ∧ (∀ q ∈ s.hourlyData, q.1 ≠ truncHour e.timestamp →
            truncHour (now - 172800) ≤ q.1 →
            q ∈ (processEventState now e s).hourlyData)))
    ∧ (¬(now - s.lastCleanup > 300) →
       ((processEventState now e s).lastCleanup = s.lastCleanup
        ∧ (∀ p ∈ s.sessionsActive, p.1 ≠ e.sessionID →
            p ∈ (processEventState now e s).sessionsActive)
        ∧ (∀ q ∈ s.hourlyData, q.1 ≠ truncHour e.timestamp →
            q ∈ (processEventState now e s).hourlyData))) := by
  constructor
  · intro hc
    refine ⟨?_, ?_, ?_, ?_, ?_⟩
    · rw [pes_lastCleanup, if_pos hc]
    · rw [pes_sessionsActive]
      simp only [if_pos hc]
      intro p hp
      have h2 := (List.mem_filter.1 hp).2
      simp only [Bool.not_eq_true', decide_eq_false_iff_not, not_lt] at h2
      omega
    · intro p hp hne hle
      rw [pes_sessionsActive]
      simp only [if_pos hc]
      refine List.mem_filter.2 ⟨?_, ?_⟩
      · by_cases hsid : e.sessionID ≠ ""
        · simp only [if_pos hsid]
          exact mem_setKey_of_ne hp _ _ hne
        · simp only [if_neg hsid]
          exact hp
      · simp only [Bool.not_eq_true', decide_eq_false_iff_not, not_lt]
        omega
    · rw [pes_hourlyData]
      simp only [if_pos hc]
      intro q hq
      have h2 := (List.mem_filter.1 hq).2
      simp only [Bool.not_eq_true', decide_eq_false_iff_not, not_lt] at h2
      omega
    · intro q hq hne hle
      rw [pes_hourlyData]
      simp only [if_pos hc]
      refine List.mem_filter.2 ⟨mem_bumpKey_of_ne hq _ hne, ?_⟩
      simp only [Bool.not_eq_true', decide_eq_false_iff_not, not_lt]
      omega
  · intro hc
    refine ⟨?_, ?_, ?_⟩
    · rw [pes_lastCleanup, if_neg hc]
    · intro p hp hne
      rw [pes_sessionsActive]
      simp only [if_neg hc]
      by_cases hsid : e.sessionID ≠ ""
      · simp only [if_pos hsid]
        exact mem_setKey_of_ne hp _ _ hne
      · simp only [if_neg hsid]
        exact hp
    · intro q hq hne
      rw [pes_hourlyData]
      simp only [if_neg hc]
      exact mem_bumpKey_of_ne hq _ hne

/-- C9, witness: at 174600 s with last cleanup at 0 the cleanup pass runs
and stamps LastCleanup on the stale-bucket store. -/
theorem claim_c9_witness :
    174600 - staleBucketState.lastCleanup > 300
    ∧ (processEventState 174600 staleEvent staleBucketState).lastCleanup = 174600 :=
  ⟨by decide, ((claim_c9 174600 staleEvent staleBucketState).1 (by decide)).1⟩

/-- C10: on an empty load-times buffer the performance metrics of the
snapshot are the all-zero record; the mean division and the sorted-copy
indexing sit behind the emptiness guard and are never reached. -/
theorem claim_c10 (s : RealTimeAnalytics) (h : s.loadTimes = []) :
    (GetSnapshot s).performanceMetrics =
      { averageLoadTime := 0, medianLoadTime := 0
      , slowPagesCount := 0, fastPagesCount := 0 } := by
  simp [GetSnapshot, h, getPerformanceMetrics]

/-- C10, witness: the theorem applied to the fresh store. -/
theorem claim_c10_witness :
    (freshAnalytics 0).loadTimes = []
    ∧ (GetSnapshot (freshAnalytics 0)).performanceMetrics =
      { averageLoadTime := 0, medianLoadTime := 0
      , slowPagesCount := 0, fastPagesCount := 0 } :=
  ⟨rfl, claim_c10 (freshAnalytics 0) rfl⟩
